import Mathlib

/-!
Shallow embedding, in Lean 4, of the treatment reconciliation core of the
omdctk repository (`omdctk_common.py`, `treat_fastqs.py`, `treat_metadata.py`),
together with theorems settling the specification claims about it.

Modelling conventions:
* pandas dataframes become lists of records (`TemplateRow`, `MetadataRow`);
* a cell that may hold NA becomes `Option String` (pandas `isna` = `none`);
* file contents become `List Nat` (byte lists); a directory of input files
  becomes a total map `String → List Nat` from file name to contents;
* Python `list.sort()` on strings becomes insertion sort by code-point
  lexicographic order (`strLe`, executable so that witnesses evaluate);
* Python `list(set(xs))` becomes `List.dedup` (the set of elements in some
  order; every use in the source either sorts or ignores the order);
* functions that `raise OMD_CTK_Exception` become `Except String Unit`;
* pandas `.str.contains(pat)` (used with `regex` alternations of literal file
  names) is modelled as plain substring containment of each alternative.
-/

namespace Omdctk

/-! ### String order utilities (Python string comparison is code-point lexicographic) -/

/-- Code-point lexicographic comparison of char lists, as Python compares strings. -/
def charListLe : List Char → List Char → Bool
  | [], _ => true
  | _ :: _, [] => false
  | a :: as, b :: bs =>
    if a.toNat < b.toNat then true
    else if b.toNat < a.toNat then false
    else charListLe as bs

/-- Python string `<=`, used by `list.sort()` on strings. -/
def strLe (a b : String) : Bool := charListLe a.data b.data

theorem charListLe_total : ∀ as bs, charListLe as bs = true ∨ charListLe bs as = true
  | [], _ => Or.inl rfl
  | _ :: _, [] => Or.inr rfl
  | a :: as, b :: bs => by
    rcases Nat.lt_trichotomy a.toNat b.toNat with h | h | h
    · left; simp [charListLe, h]
    · have ha : ¬ a.toNat < b.toNat := by omega
      have hb : ¬ b.toNat < a.toNat := by omega
      rcases charListLe_total as bs with hc | hc
      · left; simp [charListLe, ha, hb, hc]
      · right; simp [charListLe, ha, hb, h, hc]
    · right; simp [charListLe, h]

theorem char_toNat_inj {c d : Char} (h : c.toNat = d.toNat) : c = d := by
  have h2 := congrArg Char.ofNat h
  rwa [Char.ofNat_toNat, Char.ofNat_toNat] at h2

theorem charListLe_antisymm : ∀ as bs, charListLe as bs = true → charListLe bs as = true → as = bs
  | [], [], _, _ => rfl
  | [], _ :: _, _, h => by simp [charListLe] at h
  | _ :: _, [], h, _ => by simp [charListLe] at h
  | a :: as, b :: bs, h1, h2 => by
    rcases Nat.lt_trichotomy a.toNat b.toNat with h | h | h
    · exfalso
      simp only [charListLe, if_neg (show ¬ b.toNat < a.toNat by omega), if_pos h] at h2
      exact Bool.noConfusion h2
    · have ha : ¬ a.toNat < b.toNat := by omega
      have hb : ¬ b.toNat < a.toNat := by omega
      simp only [charListLe, if_neg ha, if_neg hb] at h1
      simp only [charListLe, if_neg hb, if_neg ha] at h2
      rw [char_toNat_inj h, charListLe_antisymm as bs h1 h2]
    · simp only [charListLe] at h1
      rw [if_neg (by omega), if_pos h] at h1
      exact absurd h1 (by simp)

theorem charListLe_trans : ∀ as bs cs, charListLe as bs = true → charListLe bs cs = true →
    charListLe as cs = true
  | [], _, _, _, _ => rfl
  | _ :: _, [], _, h, _ => by simp [charListLe] at h
  | _ :: _, _ :: _, [], _, h => by simp [charListLe] at h
  | a :: as, b :: bs, c :: cs, h1, h2 => by
    simp only [charListLe] at h1 h2 ⊢
    rcases Nat.lt_trichotomy a.toNat b.toNat with hab | hab | hab <;>
      rcases Nat.lt_trichotomy b.toNat c.toNat with hbc | hbc | hbc
    all_goals first
      | (rw [if_pos (by omega)])
      | (rw [if_neg (by omega), if_pos (by omega)] at h1; exact absurd h1 (by simp))
      | (rw [if_neg (by omega), if_pos (by omega)] at h2; exact absurd h2 (by simp))
      | (rw [if_neg (by omega), if_neg (by omega)] at h1 h2 ⊢
         exact charListLe_trans as bs cs h1 h2)

theorem string_data_inj {s t : String} (h : s.data = t.data) : s = t :=
  congrArg String.mk h

/-- The sorting relation used throughout: Python string `<=` as a `Prop`. -/
def strLeRel (a b : String) : Prop := strLe a b = true

instance : DecidableRel strLeRel := fun a b => inferInstanceAs (Decidable (strLe a b = true))

instance : IsTotal String strLeRel := ⟨fun a b => charListLe_total a.data b.data⟩

instance : IsTrans String strLeRel :=
  ⟨fun a b c h1 h2 => charListLe_trans a.data b.data c.data h1 h2⟩

instance : IsAntisymm String strLeRel :=
  ⟨fun a b h1 h2 => string_data_inj (charListLe_antisymm a.data b.data h1 h2)⟩

/-- Python `list.sort()` on a list of strings. -/
def sortStrings (l : List String) : List String := List.insertionSort strLeRel l

theorem sortStrings_perm (l : List String) : List.Perm (sortStrings l) l :=
  List.perm_insertionSort strLeRel l

theorem sortStrings_sorted (l : List String) : List.Sorted strLeRel (sortStrings l) :=
  List.sorted_insertionSort strLeRel l

/-- Sorting a deduplicated list yields the canonical sorted listing of the set
of elements of `l` — the bridge between Python `sorted(list(set(l)))` and
"the set of elements of `l`, sorted". -/
theorem sortStrings_dedup_eq_finset_sort (l : List String) :
    sortStrings l.dedup = Finset.sort strLeRel l.toFinset := by
  apply List.eq_of_perm_of_sorted (r := strLeRel)
  · apply (List.perm_ext_iff_of_nodup ?_ ?_).mpr
    · intro a
      rw [(sortStrings_perm l.dedup).mem_iff, List.mem_dedup,
        Finset.mem_sort, List.mem_toFinset]
    · exact ((sortStrings_perm l.dedup).nodup_iff).mpr l.nodup_dedup
    · exact Finset.sort_nodup strLeRel l.toFinset
  · exact sortStrings_sorted l.dedup
  · exact Finset.sort_sorted strLeRel l.toFinset

theorem sortStrings_dedup_eq_of_mem_eq {l₁ l₂ : List String}
    (h : ∀ a, a ∈ l₁ ↔ a ∈ l₂) : sortStrings l₁.dedup = sortStrings l₂.dedup := by
  rw [sortStrings_dedup_eq_finset_sort, sortStrings_dedup_eq_finset_sort]
  congr 1
  ext a
  rw [List.mem_toFinset, List.mem_toFinset]
  exact h a

/-- A `Nodup` list all of whose elements are equal has at most one element. -/
theorem length_le_one_of_nodup_of_all_eq {l : List String} (a : String)
    (hn : l.Nodup) (h : ∀ x ∈ l, x = a) : l.length ≤ 1 := by
  match l, hn with
  | [], _ => simp
  | x :: xs, hn =>
    have hx : x = a := h x (List.mem_cons_self _ _)
    have hxs : xs = [] := by
      apply List.eq_nil_iff_forall_not_mem.mpr
      intro y hy
      have hya : y = a := h y (List.mem_cons_of_mem _ hy)
      have : x ∉ xs := (List.nodup_cons.mp hn).1
      rw [hx, ← hya] at this
      exact this hy
    simp [hxs]

/-! ### Python string primitives used by `treat_metadata.py` -/

/-- Python `s.replace(pat, '')` (non-regex), fuelled so that recursion is
structural (each step consumes at least one character, so fuel = length of the
remaining string always suffices): delete every non-overlapping occurrence of
`pat`, scanning left to right.  An empty `pat` deletes nothing. -/
def replaceAllF (pat : List Char) : Nat → List Char → List Char
  | _, [] => []
  | 0, l => l
  | fuel + 1, c :: rest =>
    if pat ≠ [] ∧ pat.isPrefixOf (c :: rest) = true then
      replaceAllF pat fuel (List.drop pat.length (c :: rest))
    else
      c :: replaceAllF pat fuel rest

/-- Python `s.replace(pat, '')` (non-regex). -/
def replaceAll (pat s : List Char) : List Char := replaceAllF pat s.length s

/-- Helper for Python `s.split(sep)` with non-empty `sep`, fuelled as
`replaceAllF`: accumulate the current field (reversed) and cut at each
non-overlapping occurrence of `sep`. -/
def splitOnAux (sep : List Char) : Nat → List Char → List Char → List (List Char)
  | _, acc, [] => [acc.reverse]
  | 0, acc, l => [acc.reverse ++ l]
  | fuel + 1, acc, c :: rest =>
    if sep ≠ [] ∧ sep.isPrefixOf (c :: rest) = true then
      acc.reverse :: splitOnAux sep fuel [] (List.drop sep.length (c :: rest))
    else
      splitOnAux sep fuel (c :: acc) rest

/-- Python `s.split(sep)` for a non-empty separator. -/
def splitOnStr (sep s : List Char) : List (List Char) := splitOnAux sep s.length [] s

/-- Python `in` on strings: is `needle` a contiguous substring of `hay`?
(Models the pandas `.str.contains` calls, whose regex patterns are
alternations of literal file names.) -/
def containsSub (needle hay : String) : Bool :=
  hay.data.tails.any (fun t => needle.data.isPrefixOf t)

/-- Python `s.endswith(suffix)`. -/
def endsWithStr (s suffix : String) : Bool := suffix.data.isSuffixOf s.data

instance : DecidableEq (Except String Unit) := fun a b =>
  match a, b with
  | Except.ok x, Except.ok y => isTrue (by cases x; cases y; rfl)
  | Except.error e, Except.error f =>
    if h : e = f then isTrue (by rw [h]) else isFalse (fun hh => h (by cases hh; rfl))
  | Except.ok _, Except.error _ => isFalse (fun hh => by cases hh)
  | Except.error _, Except.ok _ => isFalse (fun hh => by cases hh)

/-! ### Data model -/

/-- One row of the treatment template
(`sample_name`, `fastq_file_name`, `fastq_type`, `treatment`). -/
structure TemplateRow where
  sample_name : String
  fastq_file_name : String
  fastq_type : String
  treatment : String
deriving DecidableEq

/-- One row of the metadata table: the value of the chosen ENA download /
generic common column (`download`) plus the other named cells, each possibly
NA. -/
structure MetadataRow where
  download : String
  cells : List (String × Option String)
deriving DecidableEq

/-- Reading one cell of a metadata row; a column absent from the row is NA. -/
def getCell (r : MetadataRow) (c : String) : Option String :=
  match r.cells.lookup c with
  | some v => v
  | none => none

/-- A warning table line
(`final_files_sample_name`, `metadata_column_name`, `warning`). -/
structure WarningRecord where
  final_files_sample_name : String
  metadata_column_name : String
  warning : String
deriving DecidableEq

/-- One line of the treated metadata table: the four default columns followed
by the combined value of each metadata column of interest. -/
structure TreatedMetadataLine where
  final_files_sample_name : String
  original_files_sample_names : String
  treatment_sample_name : String
  treatment_fastq_type : String
  combined_values : List String
deriving DecidableEq

/-! ### `treat_metadata.py`: the column fold `combine_metadata_rows` -/

/-- `WARNING_MESSAGE` from `treat_metadata.py`. -/
def WARNING_MESSAGE : String :=
  "More than one value detected after metadata combination and this metadata column was not indicated as \"no warning\" with the \"--extra_no_warning_columns\" parameter!"

/-- Step 2 of `combine_metadata_rows`: NA becomes the empty string, any other
value its string form (cells are modelled as strings already). -/
def treat_na : Option String → String
  | none => ""
  | some s => s

/-- `combine_metadata_rows` from `treat_metadata.py`: collect the column
values of the filtered metadata rows, map NA to `""`, deduplicate, sort,
join with `;`.  Instead of appending to the global `warnings_df`, the emitted
warning lines are returned alongside the combined string. -/
def combine_metadata_rows (final_files_sample_name : String)
    (filtered_metadata_df : List MetadataRow) (interest_metadata_column : String)
    (no_warnings_metadata_columns : List String) : String × List WarningRecord :=
  let metadata_col_values := filtered_metadata_df.map (fun r => getCell r interest_metadata_column)
  let metadata_col_values_treated := metadata_col_values.map treat_na
  let unique_values_list := sortStrings metadata_col_values_treated.dedup
  let warns :=
    if 1 < unique_values_list.length ∧ interest_metadata_column ∉ no_warnings_metadata_columns then
      [⟨final_files_sample_name, interest_metadata_column, WARNING_MESSAGE⟩]
    else []
  (String.intercalate ";" unique_values_list, warns)

/-- The fold value as the specification words it: "collect the column's
values, map null → empty string, take the **set** of resulting strings, sort
lexicographically, join with `;`".  Stated with `Finset` so that "the set" is
literal; compared with the source translation in the claim C3 theorem. -/
def specFoldValue (filtered_metadata_df : List MetadataRow)
    (interest_metadata_column : String) : String :=
  String.intercalate ";"
    (Finset.sort strLeRel
      ((filtered_metadata_df.map
        (fun r => treat_na (getCell r interest_metadata_column))).toFinset))

/-! ### `treat_metadata.py`: recovering original sample names -/

/-- The suffix-stripping rule shared by `unique_original_sample_names` and
`get_possible_files_suffixes`: remove every occurrence of `fastq_pattern`,
split on `sep`, keep the first `n_sep` fields, re-join with `sep`. -/
def stripOriginalName (fastq_pattern sep : String) (n_sep : Nat) (name : String) : String :=
  String.mk (List.intercalate sep.data
    ((splitOnStr sep.data (replaceAll fastq_pattern.data name.data)).take n_sep))

/-- The complementary rest of the file name after the first `n_sep` fields. -/
def restOfName (fastq_pattern sep : String) (n_sep : Nat) (name : String) : String :=
  String.mk (List.intercalate sep.data
    ((splitOnStr sep.data (replaceAll fastq_pattern.data name.data)).drop n_sep))

/-- `unique_original_sample_names` from `treat_metadata.py`: the sorted set of
original sample names recovered from the `fastq_file_name` column. -/
def unique_original_sample_names (sample_treatment_df : List TemplateRow)
    (fastq_pattern sep : String) (n_sep : Nat) : List String :=
  sortStrings
    ((sample_treatment_df.map
      (fun r => stripOriginalName fastq_pattern sep n_sep r.fastq_file_name)).dedup)

/-- `get_possible_files_suffixes` from `treat_metadata.py`: the set of
`sep ++ rest ++ fastq_pattern` suffixes, plus the bare `fastq_pattern`. -/
def get_possible_files_suffixes (sample_treatment_df : List TemplateRow)
    (fastq_pattern sep : String) (n_sep : Nat) : List String :=
  ((sample_treatment_df.map
      (fun r => restOfName fastq_pattern sep n_sep r.fastq_file_name)).dedup).map
    (fun s => sep ++ s ++ fastq_pattern) ++ [fastq_pattern]

/-- `copy_only_mode_ENA_metadata` from `treat_metadata.py`: one treated
metadata line per recovered original sample name.  Lines (and the warnings the
folds emit) are returned instead of appended to the global dataframes. -/
def copy_only_mode_ENA_metadata (sample_treatment_df : List TemplateRow)
    (treatment_sample_name : String) (metadata_df : List MetadataRow)
    (interest_metadata_columns no_warnings_metadata_columns : List String)
    (fastq_pattern sep : String) (n_sep : Nat) :
    List TreatedMetadataLine × List WarningRecord :=
  let original_sample_names :=
    unique_original_sample_names sample_treatment_df fastq_pattern sep n_sep
  let possible_fastq_file_suffixes :=
    get_possible_files_suffixes sample_treatment_df fastq_pattern sep n_sep
  let unique_fastq_types := sortStrings (sample_treatment_df.map (fun r => r.fastq_type)).dedup
  let lines := original_sample_names.map (fun sample =>
    let temp_possible_fastq_names := possible_fastq_file_suffixes.map (fun s => sample ++ s)
    let temp_sample_metadata_df := metadata_df.filter
      (fun m => temp_possible_fastq_names.any (fun n => containsSub n m.download))
    let combined := interest_metadata_columns.map
      (fun col => combine_metadata_rows sample temp_sample_metadata_df col
        no_warnings_metadata_columns)
    (TreatedMetadataLine.mk sample sample treatment_sample_name
        (String.intercalate ";" unique_fastq_types) (combined.map (fun p => p.1)),
      (combined.map (fun p => p.2)).flatten))
  (lines.map (fun p => p.1), (lines.map (fun p => p.2)).flatten)

/-! ### `treat_metadata.py`: `check_treatment_fastqs_in_metadata` -/

/-- Error message of `check_treatment_fastqs_in_metadata`. -/
def fastqsInMetadataErrMsg : String :=
  "Error! Some of the Fastqs in the Treatment Template do not have a unique match with the Metadata Table (zero or more than one match)!"

/-- How many metadata rows match a template fastq file name
(`metadata_df[column].str.contains(name)`). -/
def metadataMatchCount (metadata_df : List MetadataRow) (name : String) : Nat :=
  metadata_df.countP (fun m => containsSub name m.download)

/-- `check_treatment_fastqs_in_metadata` from `treat_metadata.py`, returning
the list of file names the function prints before raising and whether it
raises.  Note the source prints the more-than-one-match list, `elif` the
zero-match list: when both are non-empty only the former is printed. -/
def check_treatment_fastqs_in_metadata (treatment_df : List TemplateRow)
    (metadata_df : List MetadataRow) : List String × Bool :=
  let fastqs_warnings_more_than_one_match :=
    (treatment_df.map (fun r => r.fastq_file_name)).filter
      (fun n => 1 < metadataMatchCount metadata_df n)
  let fastqs_warnings_zero_matches :=
    (treatment_df.map (fun r => r.fastq_file_name)).filter
      (fun n => metadataMatchCount metadata_df n = 0)
  if fastqs_warnings_more_than_one_match ≠ [] ∨ fastqs_warnings_zero_matches ≠ [] then
    (if fastqs_warnings_more_than_one_match ≠ [] then fastqs_warnings_more_than_one_match
     else if fastqs_warnings_zero_matches ≠ [] then fastqs_warnings_zero_matches
     else [],
     true)
  else ([], false)

/-! ### `omdctk_common.py`: per-sample grouping and counting -/

/-- The rows of the template belonging to one sample
(`treatment_df[treatment_df['sample_name'] == sample]`). -/
def rowsOfSample (treatment_df : List TemplateRow) (sample : String) : List TemplateRow :=
  treatment_df.filter (fun r => r.sample_name == sample)

/-- Number of rows of a sample dataframe with the given `fastq_type`
(`list(df['fastq_type']).count(t)`). -/
def countType (sample_df : List TemplateRow) (t : String) : Nat :=
  (sample_df.map (fun r => r.fastq_type)).count t

/-- `sorted(list(set(treatment_table['sample_name'])))`. -/
def uniqueSampleNames (treatment_df : List TemplateRow) : List String :=
  sortStrings (treatment_df.map (fun r => r.sample_name)).dedup

/-! ### `omdctk_common.py`: shape validators -/

/-- The per-sample shape test of `check_rename_samples`: the cascade of
accepted `(n_pair1, n_pair2, n_single)` configurations for rename mode. -/
def renameShapeOK (n_pair1 n_pair2 n_single : Nat) : Bool :=
  if n_pair1 = 1 ∧ n_pair2 = 1 ∧ n_single = 1 then true
  else if n_pair1 = 0 ∧ n_pair2 = 0 ∧ n_single = 1 then true
  else if n_pair1 = 1 ∧ n_pair2 = 1 ∧ n_single = 0 then true
  else false

/-- The per-sample shape test of `check_merge_samples`: the cascade of
accepted `(n_pair1, n_pair2, n_single)` configurations for merge mode. -/
def mergeShapeOK (n_pair1 n_pair2 n_single : Nat) : Bool :=
  if 1 < n_pair1 ∧ 1 < n_pair2 ∧ 1 < n_single ∧ n_pair1 = n_pair2 ∧ n_pair1 = n_single then true
  else if n_pair1 = 0 ∧ n_pair2 = 0 ∧ 1 < n_single then true
  else if n_single = 0 ∧ 1 < n_pair1 ∧ 1 < n_pair2 ∧ n_pair1 = n_pair2 then true
  else false

/-- Header of the `check_rename_samples` error message. -/
def renameConfigErrMsg : String :=
  "Error! Some of the samples in the Treatment Template have incompatible file configurations for rename mode!"

/-- Header of the `check_merge_samples` error message. -/
def mergeConfigErrMsg : String :=
  "Error! Some of the samples in the Treatment Template have incompatible file configurations for merge mode!"

/-- `check_rename_samples` from `omdctk_common.py`: collect the samples whose
treatments include `rename` but whose type counts fit none of the accepted
rename configurations; raise if any. -/
def check_rename_samples (treatment_df : List TemplateRow) : Except String Unit :=
  let offenders := (uniqueSampleNames treatment_df).filter (fun sample =>
    let temp_sample := rowsOfSample treatment_df sample
    (temp_sample.map (fun r => r.treatment)).contains "rename" &&
      !(renameShapeOK (countType temp_sample "pair1") (countType temp_sample "pair2")
        (countType temp_sample "single")))
  if offenders = [] then Except.ok ()
  else Except.error (renameConfigErrMsg ++ " " ++ String.intercalate ", " offenders)

/-- `check_merge_samples` from `omdctk_common.py`: collect the samples whose
treatments include `merge` but whose type counts fit none of the accepted
merge configurations; raise if any. -/
def check_merge_samples (treatment_df : List TemplateRow) : Except String Unit :=
  let offenders := (uniqueSampleNames treatment_df).filter (fun sample =>
    let temp_sample := rowsOfSample treatment_df sample
    (temp_sample.map (fun r => r.treatment)).contains "merge" &&
      !(mergeShapeOK (countType temp_sample "pair1") (countType temp_sample "pair2")
        (countType temp_sample "single")))
  if offenders = [] then Except.ok ()
  else Except.error (mergeConfigErrMsg ++ " " ++ String.intercalate ", " offenders)

/-- Header of the `check_treatment_for_samples` error message. -/
def mixedTreatmentsErrMsg : String :=
  "Error! Some of the samples in the Treatment Template show mixed treatments!"

/-- `check_treatment_for_samples` from `omdctk_common.py`: every sample must
carry exactly one distinct treatment value. -/
def check_treatment_for_samples (treatment_df : List TemplateRow) : Except String Unit :=
  let offenders := (uniqueSampleNames treatment_df).filter (fun sample =>
    ((rowsOfSample treatment_df sample).map (fun r => r.treatment)).dedup.length ≠ 1)
  if offenders = [] then Except.ok ()
  else Except.error (mixedTreatmentsErrMsg ++ " " ++ String.intercalate ", " offenders)

/-! ### `omdctk_common.py`: duplicate fastq names -/

/-- The rows pandas `df.duplicated(subset=['fastq_file_name'])` marks: every
occurrence of a name that already appeared in an earlier row.  `seen` carries
the names of the rows already scanned. -/
def dupAux (seen : List String) : List String → List String
  | [] => []
  | n :: rest => if n ∈ seen then n :: dupAux seen rest else dupAux (n :: seen) rest

/-- The `fastq_file_name` values of the duplicated rows, in template order:
the list `check_duplicates_in_fastq_names` reports. -/
def dupEntries (names : List String) : List String := dupAux [] names

/-- Header of the `check_duplicates_in_fastq_names` error message. -/
def duplicatesErrMsg : String :=
  "Error! Some of the values of the \"fastq_file_name\" column in the Treatment Template are duplicates!"

/-- `check_duplicates_in_fastq_names` from `omdctk_common.py`. -/
def check_duplicates_in_fastq_names (treatment_df : List TemplateRow) : Except String Unit :=
  let duplicates := dupEntries (treatment_df.map (fun r => r.fastq_file_name))
  if duplicates = [] then Except.ok ()
  else Except.error (duplicatesErrMsg ++ " " ++ String.intercalate ", " duplicates)

/-! ### `omdctk_common.py`: fastq pattern checks -/

/-- First error message of `check_fastq_PAIRED_patterns`. -/
def patternsNoMatchErrMsg : String :=
  "Error! The provided Fastq Pattern does not match with some of the PAIRED files patterns!\n Check the provided patterns parameters!"

/-- Second error message of `check_fastq_PAIRED_patterns`. -/
def patternsIdenticalErrMsg : String :=
  "Error! The provided PAIRED files patterns are identical!\n Check the provided patterns parameters!"

/-- Third error message of `check_fastq_PAIRED_patterns`. -/
def patternsGeneralErrMsg : String :=
  "Error! The provided Fastq Pattern is identical to some of the PAIRED files patterns!\n Check the provided patterns parameters!"

/-- `check_fastq_PAIRED_patterns` from `omdctk_common.py`: the global
pre-flight compatibility check of the three file patterns. -/
def check_fastq_PAIRED_patterns (fastq_pattern r1_files_pattern r2_files_pattern : String) :
    Except String Unit :=
  if !(endsWithStr r1_files_pattern fastq_pattern) ||
      !(endsWithStr r2_files_pattern fastq_pattern) then
    Except.error patternsNoMatchErrMsg
  else if r1_files_pattern == r2_files_pattern then
    Except.error patternsIdenticalErrMsg
  else if r1_files_pattern == fastq_pattern || r2_files_pattern == fastq_pattern then
    Except.error patternsGeneralErrMsg
  else Except.ok ()

/-- `check_fastq_name_type` from `omdctk_common.py`: does a file name end with
the pattern its declared `fastq_type` demands? -/
def check_fastq_name_type (fastq_file_name fastq_type fastq_pattern R1_pattern R2_pattern :
    String) : Bool :=
  if fastq_type == "pair1" && endsWithStr fastq_file_name R1_pattern then true
  else if fastq_type == "pair2" && endsWithStr fastq_file_name R2_pattern then true
  else if fastq_type == "single" && endsWithStr fastq_file_name fastq_pattern &&
      !(endsWithStr fastq_file_name R1_pattern || endsWithStr fastq_file_name R2_pattern) then
    true
  else false

/-- Header of the `treat_check_fastq_name_type` error message. -/
def nameTypeErrMsg : String :=
  "Error! Some of the Fastq file names in the Treatmente Template do not match the provided file patterns!"

/-- `treat_check_fastq_name_type` from `omdctk_common.py`. -/
def treat_check_fastq_name_type (treatment_df : List TemplateRow)
    (fastq_pattern R1_pattern R2_pattern : String) : Except String Unit :=
  let warnings_list := (treatment_df.filter (fun r =>
    !(check_fastq_name_type r.fastq_file_name r.fastq_type fastq_pattern R1_pattern
      R2_pattern))).map (fun r => r.fastq_file_name)
  if warnings_list = [] then Except.ok ()
  else Except.error (nameTypeErrMsg ++ " " ++ String.intercalate ", " warnings_list)

/-- Header of the `check_fastq_file_exits` error message. -/
def absentFilesErrMsg : String :=
  "Error! Some of the Fastq files in the Treatmente Template are not in the Input Directory!"

/-- `check_fastq_file_exits` from `treat_fastqs.py`: set difference between
the template file names and the directory listing. -/
def check_fastq_file_exits (list_fastq_files fastqs_in_directory : List String) :
    Except String Unit :=
  let fastqs_difference := (list_fastq_files.filter (fun f => f ∉ fastqs_in_directory)).dedup
  if fastqs_difference = [] then Except.ok ()
  else Except.error (absentFilesErrMsg ++ " " ++ String.intercalate ", " fastqs_difference)

/-- The sequence of structural checks `treat_fastqs.py:main` runs before any
per-file work, in source order (the pattern pre-flight first). -/
def treat_fastqs_checks (fastq_pattern r1_files_pattern r2_files_pattern : String)
    (treatment_table : List TemplateRow) (fastqs_in_directory : List String) :
    Except String Unit := do
  check_fastq_PAIRED_patterns fastq_pattern r1_files_pattern r2_files_pattern
  check_duplicates_in_fastq_names treatment_table
  treat_check_fastq_name_type treatment_table fastq_pattern r1_files_pattern r2_files_pattern
  check_fastq_file_exits (treatment_table.map (fun r => r.fastq_file_name)) fastqs_in_directory
  check_treatment_for_samples treatment_table
  check_rename_samples treatment_table
  check_merge_samples treatment_table

/-! ### `treat_fastqs.py`: the merge engine -/

/-- `cat_files` from `treat_fastqs.py`: byte-level concatenation of the input
files, in list order, into one output file.  The I/O try/except is out of the
embedding; the produced contents are returned. -/
def cat_files (store : String → List Nat) (list_inputfiles : List String) : List Nat :=
  (list_inputfiles.map store).flatten

/-- `list(set(sample_df['sample_name']))[0]` — under the validated-template
precondition all rows of a sample dataframe share one `sample_name`, so the
set has exactly that element. -/
def sampleNameOf (sample_df : List TemplateRow) : String :=
  ((sample_df.map (fun r => r.sample_name)).dedup).headD ""

/-- `treat_cat_files` from `treat_fastqs.py`: select the rows of one
`fastq_type`, sort their file names, and concatenate their contents into
`sample_name ++ type_pattern`.  Returns the written (name, contents) pair. -/
def treat_cat_files (store : String → List Nat) (sample_df : List TemplateRow)
    (fastq_type type_pattern : String) : String × List Nat :=
  let sample_name := sampleNameOf sample_df
  let sample_df_type := sample_df.filter (fun r => r.fastq_type == fastq_type)
  let fastq_name := sample_name ++ type_pattern
  let input_files := sortStrings (sample_df_type.map (fun r => r.fastq_file_name))
  (fastq_name, cat_files store input_files)

/-- `merge_mode` from `treat_fastqs.py`: dispatch on the sample's type counts
and concatenate per present type.  Returns the list of written files, in
write order; the silent fall-through branch returns none. -/
def merge_mode (store : String → List Nat) (sample_df : List TemplateRow)
    (fastq_pattern R1_pattern R2_pattern : String) : List (String × List Nat) :=
  let temp_n_pair1 := countType sample_df "pair1"
  let temp_n_pair2 := countType sample_df "pair2"
  let temp_n_single := countType sample_df "single"
  if 1 < temp_n_pair1 ∧ 1 < temp_n_pair2 ∧ 1 < temp_n_single ∧
      temp_n_pair1 = temp_n_pair2 ∧ temp_n_pair1 = temp_n_single then
    [treat_cat_files store sample_df "pair1" R1_pattern,
     treat_cat_files store sample_df "pair2" R2_pattern,
     treat_cat_files store sample_df "single" fastq_pattern]
  else if temp_n_pair1 = 0 ∧ temp_n_pair2 = 0 ∧ 1 < temp_n_single then
    [treat_cat_files store sample_df "single" fastq_pattern]
  else if temp_n_single = 0 ∧ 1 < temp_n_pair1 ∧ 1 < temp_n_pair2 ∧
      temp_n_pair1 = temp_n_pair2 then
    [treat_cat_files store sample_df "pair1" R1_pattern,
     treat_cat_files store sample_df "pair2" R2_pattern]
  else []

/-! ### Helper lemmas -/

theorem renameShapeOK_iff_conds {p1 p2 s : Nat} :
    renameShapeOK p1 p2 s = true ↔
      ((p1 = 1 ∧ p2 = 1 ∧ s = 1) ∨ (p1 = 0 ∧ p2 = 0 ∧ s = 1) ∨ (p1 = 1 ∧ p2 = 1 ∧ s = 0)) := by
  unfold renameShapeOK
  split_ifs with h1 h2 h3
  · exact iff_of_true rfl (Or.inl h1)
  · exact iff_of_true rfl (Or.inr (Or.inl h2))
  · exact iff_of_true rfl (Or.inr (Or.inr h3))
  · exact iff_of_false (by simp) (by rintro (h | h | h) <;> [exact h1 h; exact h2 h; exact h3 h])

theorem mergeShapeOK_iff_conds {p1 p2 s : Nat} :
    mergeShapeOK p1 p2 s = true ↔
      ((1 < p1 ∧ 1 < p2 ∧ 1 < s ∧ p1 = p2 ∧ p1 = s) ∨ (p1 = 0 ∧ p2 = 0 ∧ 1 < s) ∨
        (s = 0 ∧ 1 < p1 ∧ 1 < p2 ∧ p1 = p2)) := by
  unfold mergeShapeOK
  split_ifs with h1 h2 h3
  · exact iff_of_true rfl (Or.inl h1)
  · exact iff_of_true rfl (Or.inr (Or.inl h2))
  · exact iff_of_true rfl (Or.inr (Or.inr h3))
  · exact iff_of_false (by simp) (by rintro (h | h | h) <;> [exact h1 h; exact h2 h; exact h3 h])

theorem dupAux_count (x : String) : ∀ (l seen : List String),
    (dupAux seen l).count x = if x ∈ seen then l.count x else l.count x - 1
  | [], seen => by simp [dupAux]
  | n :: rest, seen => by
    by_cases hn : n ∈ seen
    · by_cases hx : x = n
      · subst hx
        simp [dupAux, hn, List.count_cons, dupAux_count x rest seen]
      · simp [dupAux, hn, hx, List.count_cons, dupAux_count x rest seen]
    · by_cases hx : x = n
      · subst hx
        have hmem : x ∈ x :: seen := List.mem_cons_self _ _
        simp [dupAux, hn, List.count_cons, dupAux_count x rest (x :: seen), hmem]
      · have hmem : x ∈ n :: seen ↔ x ∈ seen := by simp [List.mem_cons, hx]
        simp [dupAux, hn, hx, List.count_cons, dupAux_count x rest (n :: seen), hmem]

/-- Mapping a list cannot increase the number of distinct elements below two. -/
theorem dedup_length_map_le_one {l : List (Option String)} (f : Option String → String)
    (h : l.dedup.length ≤ 1) : (l.map f).dedup.length ≤ 1 := by
  rcases hd : l.dedup with _ | ⟨a, rest⟩
  · have : l = [] := (List.dedup_eq_nil l).mp hd
    subst this
    simp
  · have hrest : rest = [] := by
      have := hd ▸ h
      simpa using List.length_eq_zero.mp (by simpa using this)
    subst hrest
    have hall : ∀ x ∈ l, x = a := by
      intro x hx
      have : x ∈ l.dedup := List.mem_dedup.mpr hx
      rw [hd] at this
      simpa using this
    apply length_le_one_of_nodup_of_all_eq (f a) (l.map f).nodup_dedup
    intro y hy
    rcases List.mem_map.mp (List.mem_dedup.mp hy) with ⟨x, hx, rfl⟩
    rw [hall x hx]

/-! ### Claim theorems -/

/-- Claim C2: for every triple `(n_pair1, n_pair2, n_single)` of per-sample
fastq_type counts, the rename shape validator accepts iff the triple is
`(1,1,1)`, `(1,1,0)` or `(0,0,1)`, and the merge shape validator accepts iff
the triple is `(k,k,k)`, `(0,0,k)` or `(k,k,0)` for some `k > 1`; every other
triple is rejected (and hence reported as a fatal error). -/
theorem shape_validator_completeness (p1 p2 s : Nat) :
    (renameShapeOK p1 p2 s = true ↔
      ((p1 = 1 ∧ p2 = 1 ∧ s = 1) ∨ (p1 = 1 ∧ p2 = 1 ∧ s = 0) ∨ (p1 = 0 ∧ p2 = 0 ∧ s = 1))) ∧
    (mergeShapeOK p1 p2 s = true ↔
      (∃ k, 1 < k ∧ ((p1 = k ∧ p2 = k ∧ s = k) ∨ (p1 = 0 ∧ p2 = 0 ∧ s = k) ∨
        (p1 = k ∧ p2 = k ∧ s = 0)))) := by
  constructor
  · rw [renameShapeOK_iff_conds]
    tauto
  · rw [mergeShapeOK_iff_conds]
    constructor
    · rintro (h | h | h)
      · exact ⟨p1, by omega, Or.inl (by omega)⟩
      · exact ⟨s, by omega, Or.inr (Or.inl (by omega))⟩
      · exact ⟨p1, by omega, Or.inr (Or.inr (by omega))⟩
    · rintro ⟨k, hk, h | h | h⟩ <;> omega

/-- Witness for C2 at the concrete triples `(1,1,0)` (rename) and `(2,2,0)`
(merge). -/
theorem shape_validator_completeness_witness :
    renameShapeOK 1 1 0 = true ∧ mergeShapeOK 2 2 0 = true :=
  ⟨(shape_validator_completeness 1 1 0).1.mpr (Or.inr (Or.inl (by omega))),
    (shape_validator_completeness 2 2 0).2.mpr ⟨2, by omega, Or.inr (Or.inr (by omega))⟩⟩

/-- Claim C9: whenever a sample dataframe passes the merge shape validator,
`merge_mode` takes one of its three handled branches and writes at least one
output file; the silent fall-through branch (which would write nothing) is
unreachable. -/
theorem merge_dispatch_no_fallthrough (store : String → List Nat)
    (sample_df : List TemplateRow) (fastq_pattern R1_pattern R2_pattern : String)
    (h : mergeShapeOK (countType sample_df "pair1") (countType sample_df "pair2")
      (countType sample_df "single") = true) :
    merge_mode store sample_df fastq_pattern R1_pattern R2_pattern ≠ [] := by
  rcases mergeShapeOK_iff_conds.mp h with h1 | h2 | h3
  · simp only [merge_mode]
    rw [if_pos h1]
    simp
  · simp only [merge_mode]
    rw [if_neg (by omega), if_pos h2]
    simp
  · simp only [merge_mode]
    rw [if_neg (by omega), if_neg (by omega), if_pos h3]
    simp

/-- Witness for C9 at a concrete merge sample with two single-type files. -/
theorem merge_dispatch_no_fallthrough_witness :
    mergeShapeOK
        (countType [TemplateRow.mk "S" "s2.fastq.gz" "single" "merge",
          TemplateRow.mk "S" "s1.fastq.gz" "single" "merge"] "pair1")
        (countType [TemplateRow.mk "S" "s2.fastq.gz" "single" "merge",
          TemplateRow.mk "S" "s1.fastq.gz" "single" "merge"] "pair2")
        (countType [TemplateRow.mk "S" "s2.fastq.gz" "single" "merge",
          TemplateRow.mk "S" "s1.fastq.gz" "single" "merge"] "single") = true ∧
    merge_mode (fun _ => [7])
        [TemplateRow.mk "S" "s2.fastq.gz" "single" "merge",
          TemplateRow.mk "S" "s1.fastq.gz" "single" "merge"]
        ".fastq.gz" "_1.fastq.gz" "_2.fastq.gz" ≠ [] :=
  ⟨by decide, merge_dispatch_no_fallthrough _ _ _ _ _ (by decide)⟩

/-- Claim C10: the duplicate list reported by `check_duplicates_in_fastq_names`
contains, for every file name occurring `n` times in the template, exactly
`n - 1` entries — the second and subsequent occurrences; in particular a name
appears in the report iff it occurs at least twice, so the first occurrence is
never reported. -/
theorem duplicate_report_second_and_later_occurrences (treatment_df : List TemplateRow)
    (x : String) :
    (dupEntries (treatment_df.map (fun r => r.fastq_file_name))).count x =
      (treatment_df.map (fun r => r.fastq_file_name)).count x - 1 ∧
    (x ∈ dupEntries (treatment_df.map (fun r => r.fastq_file_name)) ↔
      2 ≤ (treatment_df.map (fun r => r.fastq_file_name)).count x) := by
  have hc : (dupEntries (treatment_df.map (fun r => r.fastq_file_name))).count x =
      (treatment_df.map (fun r => r.fastq_file_name)).count x - 1 := by
    rw [dupEntries, dupAux_count x _ []]
    simp
  refine ⟨hc, ?_⟩
  rw [← List.count_pos_iff, hc]
  omega

/-- Claim C1 (amended): a `WarningRecord` is emitted by `combine_metadata_rows`
iff mapping NA to the empty string and every other value to its string form
yields two or more distinct strings and the column is absent from the
no-warning allow-list; when the rows hold at most one distinct raw value no
warning is ever emitted; and the folded value is returned in every case. -/
theorem combine_warning_iff (fname col : String) (nw : List String)
    (df : List MetadataRow) :
    ((combine_metadata_rows fname df col nw).2 ≠ [] ↔
      1 < ((df.map (fun r => getCell r col)).map treat_na).dedup.length ∧ col ∉ nw) ∧
    ((df.map (fun r => getCell r col)).dedup.length ≤ 1 →
      (combine_metadata_rows fname df col nw).2 = []) ∧
    (combine_metadata_rows fname df col nw).1 =
      String.intercalate ";"
        (sortStrings ((df.map (fun r => getCell r col)).map treat_na).dedup) := by
  have hlen : (sortStrings ((df.map (fun r => getCell r col)).map treat_na).dedup).length =
      ((df.map (fun r => getCell r col)).map treat_na).dedup.length :=
    (sortStrings_perm _).length_eq
  refine ⟨?_, ?_, rfl⟩
  · simp only [combine_metadata_rows]
    split_ifs with h
    · exact iff_of_true (by simp) (by rwa [hlen] at h)
    · exact iff_of_false (by simp) (by rwa [hlen] at h)
  · intro hle
    have hmap := dedup_length_map_le_one treat_na hle
    simp only [combine_metadata_rows]
    rw [if_neg]
    intro hc
    rw [hlen] at hc
    omega

/-- Witness for C1 at a column with one repeated value: no warning emitted. -/
theorem combine_warning_iff_witness :
    ((([MetadataRow.mk "u" [("c", some "x")], MetadataRow.mk "v" [("c", some "x")]] :
        List MetadataRow).map (fun r => getCell r "c")).dedup.length ≤ 1) ∧
    (combine_metadata_rows "W"
      [MetadataRow.mk "u" [("c", some "x")], MetadataRow.mk "v" [("c", some "x")]]
      "c" []).2 = [] :=
  ⟨by decide,
    (combine_warning_iff "W" "c" []
      [MetadataRow.mk "u" [("c", some "x")], MetadataRow.mk "v" [("c", some "x")]]).2.1
      (by decide)⟩

/-- Counterexample to Claim C1 as stated: with raw values `{NA, "a"}` there is
exactly one distinct non-null value, yet a warning is emitted (NA collapses to
the empty string, producing two distinct folded strings). -/
theorem combine_warning_nonnull_counterexample :
    (combine_metadata_rows "s1"
        [MetadataRow.mk "m1" [("c", none)], MetadataRow.mk "m2" [("c", some "a")]]
        "c" []).2 ≠ [] ∧
    ((([MetadataRow.mk "m1" [("c", none)], MetadataRow.mk "m2" [("c", some "a")]] :
        List MetadataRow).map (fun r => getCell r "c")).filterMap id).dedup.length = 1 := by
  decide

/-- Claim C3: the column fold returns exactly the `;`-join of the
lexicographically sorted set of folded strings (NA mapped to `""`), and is
therefore invariant under permutation and duplication of the metadata rows. -/
theorem combine_fold_set_sorted_invariant (fname col : String) (nw : List String)
    (df dfp : List MetadataRow) (hperm : List.Perm dfp df) :
    (combine_metadata_rows fname df col nw).1 = specFoldValue df col ∧
    (combine_metadata_rows fname dfp col nw).1 = (combine_metadata_rows fname df col nw).1 ∧
    (combine_metadata_rows fname (df ++ df) col nw).1 =
      (combine_metadata_rows fname df col nw).1 := by
  have hspec : ∀ d : List MetadataRow, (combine_metadata_rows fname d col nw).1 =
      String.intercalate ";" (sortStrings ((d.map (fun r => getCell r col)).map treat_na).dedup) :=
    fun d => rfl
  refine ⟨?_, ?_, ?_⟩
  · rw [hspec, specFoldValue, sortStrings_dedup_eq_finset_sort]
    congr 2
    rw [List.map_map]
    rfl
  · rw [hspec, hspec]
    congr 1
    apply sortStrings_dedup_eq_of_mem_eq
    intro a
    constructor
    · intro ha
      exact ((hperm.map (fun r => getCell r col)).map treat_na).mem_iff.mp ha
    · intro ha
      exact ((hperm.map (fun r => getCell r col)).map treat_na).mem_iff.mpr ha
  · rw [hspec, hspec]
    congr 1
    apply sortStrings_dedup_eq_of_mem_eq
    intro a
    simp only [List.map_append, List.mem_append]
    tauto

/-- Witness for C3 at a concrete two-row table and its reversal. -/
theorem combine_fold_set_sorted_invariant_witness :
    (combine_metadata_rows "D"
        [MetadataRow.mk "m1" [("c", some "b")], MetadataRow.mk "m2" [("c", none)]]
        "c" []).1 =
      specFoldValue
        [MetadataRow.mk "m1" [("c", some "b")], MetadataRow.mk "m2" [("c", none)]] "c" ∧
    (combine_metadata_rows "D"
        [MetadataRow.mk "m2" [("c", none)], MetadataRow.mk "m1" [("c", some "b")]]
        "c" []).1 =
      (combine_metadata_rows "D"
        [MetadataRow.mk "m1" [("c", some "b")], MetadataRow.mk "m2" [("c", none)]]
        "c" []).1 :=
  ⟨(combine_fold_set_sorted_invariant "D" "c" [] _ _
      (List.Perm.swap (MetadataRow.mk "m1" [("c", some "b")])
        (MetadataRow.mk "m2" [("c", none)]) [])).1,
    (combine_fold_set_sorted_invariant "D" "c" [] _ _
      (List.Perm.swap (MetadataRow.mk "m1" [("c", some "b")])
        (MetadataRow.mk "m2" [("c", none)]) [])).2.1⟩

/-- Claim C8: the column fold is total — in particular, on an empty filtered
metadata table it returns the empty string and emits no warning, for every
sample name, column and allow-list. -/
theorem combine_total_on_empty (fname col : String) (nw : List String) :
    combine_metadata_rows fname [] col nw = ("", []) := by
  have h0 : sortStrings ((([] : List MetadataRow).map
      (fun r => getCell r col)).map treat_na).dedup = [] := rfl
  simp only [combine_metadata_rows, h0]
  rw [if_neg (fun hc => by simp at hc)]
  rfl

/-- Claim C4: for a sample accepted by the merge shape validator, `merge_mode`
writes, for each fastq_type present, exactly one file named
`sample_name ++ pattern` (R1 pattern for pair1, R2 for pair2, general for
single) whose contents are the concatenation of that type's input files in
file-name-sorted order — and nothing else. -/
theorem merge_engine_output (store : String → List Nat) (sample_df : List TemplateRow)
    (fastq_pattern R1_pattern R2_pattern : String)
    (h : mergeShapeOK (countType sample_df "pair1") (countType sample_df "pair2")
      (countType sample_df "single") = true) :
    merge_mode store sample_df fastq_pattern R1_pattern R2_pattern =
      (if 0 < countType sample_df "pair1" then
        [(sampleNameOf sample_df ++ R1_pattern,
          ((sortStrings ((sample_df.filter (fun r => r.fastq_type == "pair1")).map
            (fun r => r.fastq_file_name))).map store).flatten)] else []) ++
      (if 0 < countType sample_df "pair2" then
        [(sampleNameOf sample_df ++ R2_pattern,
          ((sortStrings ((sample_df.filter (fun r => r.fastq_type == "pair2")).map
            (fun r => r.fastq_file_name))).map store).flatten)] else []) ++
      (if 0 < countType sample_df "single" then
        [(sampleNameOf sample_df ++ fastq_pattern,
          ((sortStrings ((sample_df.filter (fun r => r.fastq_type == "single")).map
            (fun r => r.fastq_file_name))).map store).flatten)] else []) := by
  rcases mergeShapeOK_iff_conds.mp h with h1 | h2 | h3
  · simp only [merge_mode]
    rw [if_pos h1, if_pos (by omega), if_pos (by omega), if_pos (by omega)]
    rfl
  · simp only [merge_mode]
    rw [if_neg (by omega), if_pos h2, if_neg (by omega), if_neg (by omega), if_pos (by omega)]
    rfl
  · simp only [merge_mode]
    rw [if_neg (by omega), if_neg (by omega), if_pos h3, if_pos (by omega), if_pos (by omega),
      if_neg (by omega)]
    rfl

/-- Witness for C4: merging two single-type files concatenates their contents
in file-name-sorted order under the name `B.fastq.gz`. -/
theorem merge_engine_output_witness :
    mergeShapeOK
        (countType [TemplateRow.mk "B" "b2.fastq.gz" "single" "merge",
          TemplateRow.mk "B" "b1.fastq.gz" "single" "merge"] "pair1")
        (countType [TemplateRow.mk "B" "b2.fastq.gz" "single" "merge",
          TemplateRow.mk "B" "b1.fastq.gz" "single" "merge"] "pair2")
        (countType [TemplateRow.mk "B" "b2.fastq.gz" "single" "merge",
          TemplateRow.mk "B" "b1.fastq.gz" "single" "merge"] "single") = true ∧
    merge_mode (fun n => if n = "b1.fastq.gz" then [1, 2] else [3])
        [TemplateRow.mk "B" "b2.fastq.gz" "single" "merge",
          TemplateRow.mk "B" "b1.fastq.gz" "single" "merge"]
        ".fastq.gz" "_1.fastq.gz" "_2.fastq.gz" = [("B.fastq.gz", [1, 2, 3])] :=
  ⟨by decide, by
    rw [merge_engine_output (fun n => if n = "b1.fastq.gz" then [1, 2] else [3]) _
      ".fastq.gz" "_1.fastq.gz" "_2.fastq.gz" (by decide)]
    decide⟩

/-- Claim C5: in copy mode the metadata aggregator produces exactly one
treated metadata line per distinct recoverable original sample name — the
lines are indexed by `unique_original_sample_names`, so their number equals
the number of distinct recovered names. -/
theorem copy_mode_one_row_per_original_name (sample_treatment_df : List TemplateRow)
    (treatment_sample_name : String) (metadata_df : List MetadataRow)
    (interest_cols no_warning_cols : List String) (fastq_pattern sep : String) (n_sep : Nat) :
    ((copy_only_mode_ENA_metadata sample_treatment_df treatment_sample_name metadata_df
        interest_cols no_warning_cols fastq_pattern sep n_sep).1).map
      (fun l => l.final_files_sample_name) =
        unique_original_sample_names sample_treatment_df fastq_pattern sep n_sep ∧
    ((copy_only_mode_ENA_metadata sample_treatment_df treatment_sample_name metadata_df
        interest_cols no_warning_cols fastq_pattern sep n_sep).1).length =
      (unique_original_sample_names sample_treatment_df fastq_pattern sep n_sep).length := by
  constructor
  · simp only [copy_only_mode_ENA_metadata, List.map_map]
    exact List.map_id _
  · simp only [copy_only_mode_ENA_metadata, List.length_map]

/-- Claim C6: the pattern pre-flight check rejects exactly the configurations
the specification lists, and when it rejects, the whole check sequence of
`treat_fastqs.py` fails with that same error before any per-file or per-sample
check runs, for every template and directory listing. -/
theorem pattern_preflight (fastq_pattern r1 r2 : String) :
    (check_fastq_PAIRED_patterns fastq_pattern r1 r2 ≠ Except.ok () ↔
      endsWithStr r1 fastq_pattern = false ∨ endsWithStr r2 fastq_pattern = false ∨
        r1 = r2 ∨ r1 = fastq_pattern ∨ r2 = fastq_pattern) ∧
    (∀ (template : List TemplateRow) (dirFiles : List String) (e : String),
      check_fastq_PAIRED_patterns fastq_pattern r1 r2 = Except.error e →
      treat_fastqs_checks fastq_pattern r1 r2 template dirFiles = Except.error e) := by
  constructor
  · simp only [check_fastq_PAIRED_patterns]
    split_ifs with h1 h2 h3
    · refine iff_of_true (by simp) ?_
      rcases Bool.or_eq_true_iff.mp h1 with h | h
      · exact Or.inl (by simpa using h)
      · exact Or.inr (Or.inl (by simpa using h))
    · exact iff_of_true (by simp) (Or.inr (Or.inr (Or.inl (by simpa using h2))))
    · refine iff_of_true (by simp) ?_
      rcases Bool.or_eq_true_iff.mp h3 with h | h
      · exact Or.inr (Or.inr (Or.inr (Or.inl (by simpa using h))))
      · exact Or.inr (Or.inr (Or.inr (Or.inr (by simpa using h))))
    · have hh1 : endsWithStr r1 fastq_pattern = true ∧ endsWithStr r2 fastq_pattern = true := by
        simpa using h1
      have hh2 : ¬ r1 = r2 := by simpa using h2
      have hh3 : ¬ r1 = fastq_pattern ∧ ¬ r2 = fastq_pattern := by simpa using h3
      refine iff_of_false (by simp) ?_
      rintro (h | h | h | h | h)
      · rw [hh1.1] at h
        exact Bool.noConfusion h
      · rw [hh1.2] at h
        exact Bool.noConfusion h
      · exact hh2 h
      · exact hh3.1 h
      · exact hh3.2 h
  · intro template dirFiles e he
    unfold treat_fastqs_checks
    rw [he]
    rfl

/-- Witness for C6: identical R1/R2 patterns are rejected and abort the whole
check sequence with the pattern error, before any template row is examined. -/
theorem pattern_preflight_witness :
    (check_fastq_PAIRED_patterns ".fastq.gz" "_1.fastq.gz" "_1.fastq.gz" ≠ Except.ok ()) ∧
    treat_fastqs_checks ".fastq.gz" "_1.fastq.gz" "_1.fastq.gz"
        [TemplateRow.mk "S" "bad" "weird" "noop"] ["x"] =
      Except.error patternsIdenticalErrMsg :=
  ⟨(pattern_preflight ".fastq.gz" "_1.fastq.gz" "_1.fastq.gz").1.mpr
      (Or.inr (Or.inr (Or.inl rfl))),
    (pattern_preflight ".fastq.gz" "_1.fastq.gz" "_1.fastq.gz").2
      [TemplateRow.mk "S" "bad" "weird" "noop"] ["x"] patternsIdenticalErrMsg (by decide)⟩

/-- Claim C7 evaluation: a template whose file `fileA.fastq.gz` has two
metadata matches and whose file `fileB.fastq.gz` has none makes
`check_treatment_fastqs_in_metadata` raise, but the printed offending list
names only `fileA.fastq.gz` — the zero-match file is omitted because the
source prints the zero-match list in an `elif` branch. -/
theorem fastqs_in_metadata_report_incomplete :
    (check_treatment_fastqs_in_metadata
        [TemplateRow.mk "s1" "fileA.fastq.gz" "single" "copy",
          TemplateRow.mk "s1" "fileB.fastq.gz" "single" "copy"]
        [MetadataRow.mk "xx fileA.fastq.gz yy" [], MetadataRow.mk "zz fileA.fastq.gz ww" []]).2
      = true ∧
    metadataMatchCount
        [MetadataRow.mk "xx fileA.fastq.gz yy" [], MetadataRow.mk "zz fileA.fastq.gz ww" []]
        "fileB.fastq.gz" = 0 ∧
    "fileB.fastq.gz" ∉
      (check_treatment_fastqs_in_metadata
        [TemplateRow.mk "s1" "fileA.fastq.gz" "single" "copy",
          TemplateRow.mk "s1" "fileB.fastq.gz" "single" "copy"]
        [MetadataRow.mk "xx fileA.fastq.gz yy" [], MetadataRow.mk "zz fileA.fastq.gz ww" []]).1 := by
  decide

/-- Witness for C10 at a concrete template where `a.fastq.gz` occurs three
times: the report counts two occurrences of it. -/
theorem duplicate_report_witness :
    (dupEntries ([TemplateRow.mk "s" "a.fastq.gz" "single" "copy",
        TemplateRow.mk "s" "b.fastq.gz" "single" "copy",
        TemplateRow.mk "s" "a.fastq.gz" "single" "copy",
        TemplateRow.mk "s" "a.fastq.gz" "single" "copy"].map
      (fun r => r.fastq_file_name))).count "a.fastq.gz" =
      ([TemplateRow.mk "s" "a.fastq.gz" "single" "copy",
        TemplateRow.mk "s" "b.fastq.gz" "single" "copy",
        TemplateRow.mk "s" "a.fastq.gz" "single" "copy",
        TemplateRow.mk "s" "a.fastq.gz" "single" "copy"].map
      (fun r => r.fastq_file_name)).count "a.fastq.gz" - 1 :=
  (duplicate_report_second_and_later_occurrences
    [TemplateRow.mk "s" "a.fastq.gz" "single" "copy",
      TemplateRow.mk "s" "b.fastq.gz" "single" "copy",
      TemplateRow.mk "s" "a.fastq.gz" "single" "copy",
      TemplateRow.mk "s" "a.fastq.gz" "single" "copy"] "a.fastq.gz").1

end Omdctk
